import Mathlib

/-!
Verification of smart_drone_agent.py against its natural-language
specification.  The Python source is shallowly embedded below: pure stub
functions become Lean functions, the YAML writer becomes a recursive
function over a value tree, and simulate_mission becomes an explicit
trace-producing function.  Print side effects are modelled as trace
events; return values are modelled exactly.
-/

namespace SmartDrone

/-! ## Directives and the failsafe posting rule (modelled from the spec)

The FailsafeSupervisor, MissionState and pending_directive machinery are
described in the specification but have no implementation in the source
(only the configuration dictionary AGENT_SPEC mentions failsafes), so the
posting rule is modelled from the specification text. -/

/-- The directive enumeration of MissionState.pending_directive.
Modelled from the spec: optional enum of None, Abort, Reroute, Hover,
ReturnToBase, EmergencyManeuver. -/
inductive Directive where
  | noDirective
  | reroute
  | hover
  | returnToBase
  | abort
  | emergencyManeuver
deriving DecidableEq, Repr

/-- Severity of a directive under the total order
EmergencyManeuver > Abort > ReturnToBase > Hover > Reroute, with the
absent directive at the bottom. Modelled from the spec severity order. -/
def severity : Directive → Nat
  | .noDirective => 0
  | .reroute => 1
  | .hover => 2
  | .returnToBase => 3
  | .abort => 4
  | .emergencyManeuver => 5

/-- Modelled from the spec: FailsafeSupervisor updates pending_directive
only if the new severity is greater than or equal to the current
outstanding severity; otherwise the outstanding directive is kept. -/
def postDirective (pending incoming : Directive) : Directive :=
  if severity pending ≤ severity incoming then incoming else pending

/-- The pending directive after a sequence of posts by the
FailsafeSupervisor, starting from a given outstanding directive
(no consumption by MissionController in between). -/
def applyPosts (pending : Directive) (posts : List Directive) : Directive :=
  posts.foldl postDirective pending

/-! ## The YAML writer (write_yaml_from_spec, source lines 224-261) -/

/-- A Python value as handled by the fmt helper inside
write_yaml_from_spec: a scalar (rendered via string interpolation), a
dict with insertion-ordered entries, or a list. -/
inductive Value where
  | scalar (s : String)
  | dict (entries : List (String × Value))
  | list (items : List Value)
deriving Repr

/-- The indentation padding: two spaces repeated, as in the source. -/
def pad (indent : Nat) : String :=
  String.join (List.replicate indent "  ")

mutual

/-- The fmt helper of write_yaml_from_spec (source lines 229-257):
renders a value at a given indentation, joining generated lines with
newlines. -/
def fmt : Value → Nat → String
  | .scalar s, indent => pad indent ++ s
  | .dict entries, indent => String.intercalate "\n" (fmtDictLines entries indent)
  | .list items, indent => String.intercalate "\n" (fmtListLines items indent)

/-- Lines produced for the entries of a dict (source lines 231-240):
a nested dict or list entry produces a key line then the recursive
rendering one level deeper; a scalar entry is rendered inline. -/
def fmtDictLines : List (String × Value) → Nat → List String
  | [], _ => []
  | (k, Value.scalar s) :: rest, indent =>
      (pad indent ++ k ++ ": " ++ s) :: fmtDictLines rest indent
  | (k, Value.dict es) :: rest, indent =>
      (pad indent ++ k ++ ":") :: fmt (Value.dict es) (indent + 1) :: fmtDictLines rest indent
  | (k, Value.list its) :: rest, indent =>
      (pad indent ++ k ++ ":") :: fmt (Value.list its) (indent + 1) :: fmtDictLines rest indent

/-- Lines produced for the items of a list (source lines 241-255):
a dict item produces a bare dash line then its contents one level
deeper; a nested list item produces a dash line with a trailing space
then its contents; a scalar item is rendered inline after a dash. -/
def fmtListLines : List Value → Nat → List String
  | [], _ => []
  | Value.scalar s :: rest, indent =>
      (pad indent ++ "- " ++ s) :: fmtListLines rest indent
  | Value.dict es :: rest, indent =>
      (pad indent ++ "-") :: fmt (Value.dict es) (indent + 1) :: fmtListLines rest indent
  | Value.list its :: rest, indent =>
      (pad indent ++ "- ") :: fmt (Value.list its) (indent + 1) :: fmtListLines rest indent

end

/-- The observable output of write_yaml_from_spec (source lines 224-261):
the text written to the output file, and the console message, which
interpolates the current wall-clock timestamp and the output path. -/
structure WriteResult where
  fileText : String
  consoleLine : String
deriving Repr

/-- write_yaml_from_spec: computes yaml_text = fmt spec, writes it to the
file, and prints a timestamped console message.  The wall clock appears
as the now_iso parameter; it reaches only the console line. -/
def write_yaml_from_spec (spec : Value) (out_path : String) (now_iso : String) : WriteResult :=
  let yaml_text := fmt spec 0
  { fileText := yaml_text
    consoleLine := "[" ++ now_iso ++ "] Wrote agent YAML spec to: " ++ out_path }

/-! ## Simulation stubs (source lines 267-318) -/

/-- verify_battery_level (source lines 267-270): passes exactly when the
current percentage is at least MIN_REQUIRED = 85. -/
def verify_battery_level (current_pct : Int) : Bool :=
  let MIN_REQUIRED : Int := 85
  decide (MIN_REQUIRED ≤ current_pct)

/-- run_sensor_health_checks (source lines 273-276): stubbed, always
reports all sensors healthy. -/
def run_sensor_health_checks : Bool := true

/-- The route object returned by compute_optimal_route. -/
structure Route where
  path : List String
  eta_min : Nat
deriving DecidableEq, Repr

/-- compute_optimal_route (source lines 279-282): returns a fixed route
through two waypoints with eta 12 minutes. -/
def compute_optimal_route (origin destination : String) (_battery_pct : Int) : Route :=
  { path := [origin, "waypoint1", "waypoint2", destination], eta_min := 12 }

/-- perform_takeoff_sequence (source lines 285-287): stubbed, always
succeeds. -/
def perform_takeoff_sequence : Bool := true

/-- The snapshot returned by sensor_fusion_loop. -/
structure FusionResult where
  obstacle_detected : Bool
deriving DecidableEq, Repr

/-- sensor_fusion_loop (source lines 290-293): takes no inputs and
unconditionally returns a snapshot with obstacle_detected = False. -/
def sensor_fusion_loop : FusionResult :=
  { obstacle_detected := false }

/-- Two successive evaluations of the sensor-fusion/trigger stub within
a run, on the same (absent) state and readings. -/
def sensor_fusion_twice : FusionResult × FusionResult :=
  (sensor_fusion_loop, sensor_fusion_loop)

/-- perform_collision_avoidance (source lines 296-298): stubbed, always
succeeds. -/
def perform_collision_avoidance : Bool := true

/-- find_drop_point_and_land (source lines 301-303): stubbed, always
succeeds. -/
def find_drop_point_and_land : Bool := true

/-- actuate_servo_release (source lines 306-308): stubbed, always
succeeds. -/
def actuate_servo_release : Bool := true

/-- The logs dictionary built by simulate_mission (source line 357). -/
structure MissionLogs where
  route : Route
  battery_end : Int
  delivered : Bool
deriving DecidableEq, Repr

/-- post_delivery_upload (source lines 311-313): stubbed, always
succeeds; its return value is ignored by simulate_mission. -/
def post_delivery_upload (_flight_logs : MissionLogs) : Bool := true

/-- The result returned by critic_review_and_learning. -/
structure CriticResult where
  kpi_ok : Bool
deriving DecidableEq, Repr

/-- critic_review_and_learning (source lines 316-318): stubbed, always
reports kpi_ok; its return value is ignored by simulate_mission. -/
def critic_review_and_learning (_flight_logs : MissionLogs) : CriticResult :=
  { kpi_ok := true }

/-! ## The mission simulation (simulate_mission, source lines 321-360) -/

/-- One trace event per stub invocation or control message printed by
simulate_mission; each constructor corresponds to one call or print in
source lines 321-360. -/
inductive Event where
  | checkBattery
  | abortBattery
  | checkSensors
  | abortSensors
  | computeRoute
  | takeoff
  | abortTakeoff
  | fusion
  | collisionAvoidance
  | land
  | abortLanding
  | servoRelease
  | releaseWarning
  | releaseSuccess
  | upload
  | criticReview
  | missionComplete
deriving DecidableEq, Repr

/-- The source function invoked, or the message printed, for each trace
event. -/
def eventName : Event → String
  | .checkBattery => "verify_battery_level"
  | .abortBattery => "Abort: battery insufficient."
  | .checkSensors => "run_sensor_health_checks"
  | .abortSensors => "Abort: sensor health failed."
  | .computeRoute => "compute_optimal_route"
  | .takeoff => "perform_takeoff_sequence"
  | .abortTakeoff => "Abort: takeoff failed."
  | .fusion => "sensor_fusion_loop"
  | .collisionAvoidance => "perform_collision_avoidance"
  | .land => "find_drop_point_and_land"
  | .abortLanding => "Abort: landing failed."
  | .servoRelease => "actuate_servo_release"
  | .releaseWarning => "Warning: release failed; marking for manual follow-up."
  | .releaseSuccess => "Package released successfully."
  | .upload => "post_delivery_upload"
  | .criticReview => "critic_review_and_learning"
  | .missionComplete => "=== MISSION COMPLETE ==="

/-- The outcomes of the checks and actions consulted by simulate_mission.
Each boolean field records the return value of the corresponding stub;
the source values are collected in nominalEnv below.  The noFlyClear
field is modelled from the spec: AGENT_SPEC lists a
confirm_no_fly_zones_and_permits pre-flight action (source line 73) but
the source defines no such function and simulate_mission never consults
any no-fly-zone or permit status. -/
structure Env where
  battery : Int
  sensorsOk : Bool
  takeoffOk : Bool
  obstacleDetected : Bool
  landingOk : Bool
  releaseOk : Bool
  noFlyClear : Bool
deriving DecidableEq, Repr

/-- The control flow of simulate_mission (source lines 321-360) with the
stub return values taken from the environment.  Each early return in the
source is a branch producing the trace up to the abort message and no
logs; the successful path builds the logs dictionary of line 357 and
runs the upload and critic calls, whose return values the source
ignores. -/
def simulateMissionGen (env : Env) : List Event × Option MissionLogs :=
  if verify_battery_level env.battery then
    if env.sensorsOk then
      let route := compute_optimal_route "DistributionCenterA" "Customer_123_MainSt" env.battery
      if env.takeoffOk then
        let fusion : FusionResult := { obstacle_detected := env.obstacleDetected }
        let fusionEvents : List Event :=
          if fusion.obstacle_detected then [Event.fusion, Event.collisionAvoidance]
          else [Event.fusion]
        if env.landingOk then
          let releaseEvents : List Event :=
            if env.releaseOk then [Event.servoRelease, Event.releaseSuccess]
            else [Event.servoRelease, Event.releaseWarning]
          let logs : MissionLogs :=
            { route := route, battery_end := env.battery - 20, delivered := true }
          ([Event.checkBattery, Event.checkSensors, Event.computeRoute, Event.takeoff]
             ++ fusionEvents ++ [Event.land] ++ releaseEvents
             ++ [Event.upload, Event.criticReview, Event.missionComplete], some logs)
        else
          ([Event.checkBattery, Event.checkSensors, Event.computeRoute, Event.takeoff]
             ++ fusionEvents ++ [Event.land, Event.abortLanding], none)
      else
        ([Event.checkBattery, Event.checkSensors, Event.computeRoute, Event.takeoff,
          Event.abortTakeoff], none)
    else
      ([Event.checkBattery, Event.checkSensors, Event.abortSensors], none)
  else
    ([Event.checkBattery, Event.abortBattery], none)

/-- The actual stub outcomes used by simulate_mission: battery is the
hard-coded 92 of source line 323, and every other field is the constant
return value of the corresponding stub.  The noFlyClear value is
irrelevant to the run; it is set to true. -/
def nominalEnv : Env :=
  { battery := 92
    sensorsOk := run_sensor_health_checks
    takeoffOk := perform_takeoff_sequence
    obstacleDetected := sensor_fusion_loop.obstacle_detected
    landingOk := find_drop_point_and_land
    releaseOk := actuate_servo_release
    noFlyClear := true }

/-- simulate_mission (source lines 321-360): the single concrete run,
with the stub outcomes of the source. -/
def simulate_mission : List Event × Option MissionLogs :=
  simulateMissionGen nominalEnv

/-! ## Trigger thresholds recorded in AGENT_SPEC -/

/-- The en-route workflow trigger if_comms_lost_gt_10s (source line
120): fires when comms have been lost for more than 10 seconds. -/
def if_comms_lost_gt_10s (comms_lost_s : Nat) : Bool :=
  decide (10 < comms_lost_s)

/-- The action attached to the en-route comms trigger (source line
120). -/
def if_comms_lost_gt_10s_action : String :=
  "switch to predefined failsafe behavior (hover or return home)"

/-- The communication_blackout failsafe condition of
error_handling_and_failsafes (source lines 208-211): comms lost for more
than 30 seconds. -/
def communication_blackout_condition (comms_lost_s : Nat) : Bool :=
  decide (30 < comms_lost_s)

/-- The action attached to the communication_blackout failsafe (source
line 210). -/
def communication_blackout_action : String :=
  "follow_predefined_failsafe (hover_then_return or land_at_safe_site)"

/-- The actions of the AGENT_SPEC workflow step named Charging,
diagnostics and maintenance (source lines 176-185). -/
def chargingStepActions : List String :=
  ["dock_and_initiate_charge", "run_full_diagnostics", "flag_maintenance_issues_to_ops"]

/-- The actions of the AGENT_SPEC workflow step named Return-to-base or
proceed to next mission (source lines 163-175). -/
def returnStepActions : List String :=
  ["evaluate_battery_and_payload_state", "compute_return_or_next_target",
   "perform_return_navigation"]

/-! ## Helper lemmas -/

theorem severity_postDirective_le (p d : Directive) :
    severity p ≤ severity (postDirective p d) := by
  unfold postDirective
  split
  · assumption
  · exact Nat.le_refl _

theorem severity_applyPosts_le (p : Directive) (posts : List Directive) :
    severity p ≤ severity (applyPosts p posts) := by
  induction posts generalizing p with
  | nil => exact Nat.le_refl _
  | cons d rest ih =>
      exact Nat.le_trans (severity_postDirective_le p d) (ih (postDirective p d))

theorem applyPosts_append (p : Directive) (l₁ l₂ : List Directive) :
    applyPosts p (l₁ ++ l₂) = applyPosts (applyPosts p l₁) l₂ := by
  simp [applyPosts, List.foldl_append]

theorem verify_battery_level_iff (b : Int) :
    verify_battery_level b = true ↔ 85 ≤ b := by
  unfold verify_battery_level
  exact decide_eq_true_iff

/-! ## Claim theorems -/

/-- C1: for every sequence of directives posted by the
FailsafeSupervisor, the severity of the pending directive is
monotonically non-decreasing until consumed, and a later post of
strictly lower severity leaves the pending directive unchanged (never
downgrades or erases it). -/
theorem pending_directive_monotone (pending : Directive) (posts more : List Directive) :
    severity (applyPosts pending posts) ≤ severity (applyPosts pending (posts ++ more)) ∧
    ∀ d : Directive, severity d < severity (applyPosts pending posts) →
      applyPosts pending (posts ++ [d]) = applyPosts pending posts := by
  constructor
  · rw [applyPosts_append]
    exact severity_applyPosts_le _ _
  · intro d hd
    rw [applyPosts_append]
    show postDirective (applyPosts pending posts) d = applyPosts pending posts
    unfold postDirective
    rw [if_neg (Nat.not_le_of_lt hd)]

/-- Witness for C1: a pending Abort survives a later Hover post, and its
severity does not decrease. -/
theorem pending_directive_monotone_spot :
    severity (applyPosts Directive.noDirective [Directive.abort]) ≤
      severity (applyPosts Directive.noDirective ([Directive.abort] ++ [Directive.hover])) ∧
    applyPosts Directive.noDirective ([Directive.abort] ++ [Directive.hover]) =
      applyPosts Directive.noDirective [Directive.abort] :=
  ⟨(pending_directive_monotone Directive.noDirective [Directive.abort] [Directive.hover]).1,
   (pending_directive_monotone Directive.noDirective [Directive.abort] [Directive.hover]).2
     Directive.hover (by decide)⟩

/-- C2: the pre-flight battery gate is exactly the threshold 85: the
battery check passes iff the battery is at least 85, and, the sensor
check passing, the mission proceeds past the pre-flight checks (reaches
route computation) iff the battery is at least 85. -/
theorem battery_gate_iff (env : Env) (hs : env.sensorsOk = true) :
    (verify_battery_level env.battery = true ↔ 85 ≤ env.battery) ∧
    (Event.computeRoute ∈ (simulateMissionGen env).1 ↔ 85 ≤ env.battery) := by
  obtain ⟨b, s, t, o, l, r, n⟩ := env
  subst hs
  refine ⟨verify_battery_level_iff b, ?_⟩
  by_cases hb : (85 : Int) ≤ b
  · have hv : verify_battery_level b = true := (verify_battery_level_iff b).mpr hb
    cases t <;> cases o <;> cases l <;> cases r <;>
      simp [simulateMissionGen, hv, hb]
  · have hv : verify_battery_level b = false := by
      rw [Bool.eq_false_iff]
      intro hcon
      exact hb ((verify_battery_level_iff b).mp hcon)
    simp [simulateMissionGen, hv, hb]

/-- Witness for C2: with all other checks passing, battery 85 proceeds
past pre-flight and battery 84 does not. -/
theorem battery_gate_iff_spot :
    Event.computeRoute ∈
      (simulateMissionGen
        { battery := 85, sensorsOk := true, takeoffOk := true, obstacleDetected := false,
          landingOk := true, releaseOk := true, noFlyClear := true }).1 ∧
    Event.computeRoute ∉
      (simulateMissionGen
        { battery := 84, sensorsOk := true, takeoffOk := true, obstacleDetected := false,
          landingOk := true, releaseOk := true, noFlyClear := true }).1 :=
  ⟨(battery_gate_iff
      { battery := 85, sensorsOk := true, takeoffOk := true, obstacleDetected := false,
        landingOk := true, releaseOk := true, noFlyClear := true } rfl).2.mpr (by decide),
   fun h =>
     absurd ((battery_gate_iff
       { battery := 84, sensorsOk := true, takeoffOk := true, obstacleDetected := false,
         landingOk := true, releaseOk := true, noFlyClear := true } rfl).2.mp h) (by decide)⟩

/-- Counterexample for C3: with battery 92 and sensors healthy but the
no-fly-zone/permit status negative, the mission still proceeds past the
pre-flight checks — simulate_mission performs no no-fly-zone or permit
check at all. -/
theorem preflight_no_fly_counterexample :
    (Env.mk 92 true true false true true false).noFlyClear = false ∧
    Event.computeRoute ∈ (simulateMissionGen (Env.mk 92 true true false true true false)).1 := by
  decide

/-- C3 amended: the mission leaves the pre-flight checks iff the battery
is at least 85 and the sensor health checks pass; the no-fly-zone/permit
check is not part of the simulated gate.  A failing gate is reported
(abort event) and the run ends immediately with no retry and no logs. -/
theorem preflight_gate_amended (env : Env) :
    (Event.computeRoute ∈ (simulateMissionGen env).1 ↔
      (85 ≤ env.battery ∧ env.sensorsOk = true)) ∧
    (verify_battery_level env.battery = false →
      simulateMissionGen env = ([Event.checkBattery, Event.abortBattery], none)) ∧
    (verify_battery_level env.battery = true → env.sensorsOk = false →
      simulateMissionGen env =
        ([Event.checkBattery, Event.checkSensors, Event.abortSensors], none)) := by
  obtain ⟨b, s, t, o, l, r, n⟩ := env
  by_cases hb : (85 : Int) ≤ b
  · have hv : verify_battery_level b = true := (verify_battery_level_iff b).mpr hb
    cases s <;> cases t <;> cases o <;> cases l <;> cases r <;>
      simp [simulateMissionGen, hv, hb]
  · have hv : verify_battery_level b = false := by
      rw [Bool.eq_false_iff]
      intro hcon
      exact hb ((verify_battery_level_iff b).mp hcon)
    cases s <;> simp [simulateMissionGen, hv, hb]

/-- Witness for C3 amended: battery 84 fails the gate and the run is
exactly the battery check followed by the abort message. -/
theorem preflight_gate_amended_spot :
    simulateMissionGen (Env.mk 84 true true false true true true) =
      ([Event.checkBattery, Event.abortBattery], none) :=
  (preflight_gate_amended (Env.mk 84 true true false true true true)).2.1 (by decide)

/-- Counterexample for C4: actuate_servo_release is an action of the
safety-critical Landing and package delivery workflow step, yet when it
fails the controller neither aborts nor retries: the action runs exactly
once, only a warning is recorded, and the mission continues through
upload and critic review to completion. -/
theorem phase_failure_counterexample :
    ((simulateMissionGen (Env.mk 92 true true false true false true)).1.count
        Event.servoRelease = 1) ∧
    Event.releaseWarning ∈ (simulateMissionGen (Env.mk 92 true true false true false true)).1 ∧
    Event.upload ∈ (simulateMissionGen (Env.mk 92 true true false true false true)).1 ∧
    Event.missionComplete ∈
      (simulateMissionGen (Env.mk 92 true true false true false true)).1 := by
  decide

/-- C4 amended: actions run in strict source order; a failing battery
check, sensor check, takeoff, or find-drop-point-and-land ends the run
immediately with an abort and no further actions; a failing servo
release is executed exactly once (no retry), produces only a warning,
and the mission continues through upload and critic review; the upload
and critic return values are never consulted. -/
theorem phase_failure_policy_amended (env : Env)
    (hb : verify_battery_level env.battery = true) (hs : env.sensorsOk = true) :
    (env.takeoffOk = false →
      simulateMissionGen env =
        ([Event.checkBattery, Event.checkSensors, Event.computeRoute, Event.takeoff,
          Event.abortTakeoff], none)) ∧
    (env.takeoffOk = true → env.landingOk = false →
      Event.abortLanding ∈ (simulateMissionGen env).1 ∧
      Event.servoRelease ∉ (simulateMissionGen env).1 ∧
      Event.upload ∉ (simulateMissionGen env).1 ∧
      (simulateMissionGen env).2 = none) ∧
    (env.takeoffOk = true → env.landingOk = true → env.releaseOk = false →
      (simulateMissionGen env).1.count Event.servoRelease = 1 ∧
      Event.releaseWarning ∈ (simulateMissionGen env).1 ∧
      Event.upload ∈ (simulateMissionGen env).1 ∧
      Event.criticReview ∈ (simulateMissionGen env).1 ∧
      Event.missionComplete ∈ (simulateMissionGen env).1) := by
  obtain ⟨b, s, t, o, l, r, n⟩ := env
  subst hs
  cases t <;> cases o <;> cases l <;> cases r <;>
    simp [simulateMissionGen, hb]

/-- Witness for C4 amended: a failed takeoff with battery 92 ends the
run at the abort with no landing or upload. -/
theorem phase_failure_policy_amended_spot :
    simulateMissionGen (Env.mk 92 true false false true true true) =
      ([Event.checkBattery, Event.checkSensors, Event.computeRoute, Event.takeoff,
        Event.abortTakeoff], none) :=
  (phase_failure_policy_amended (Env.mk 92 true false false true true true)
    (by decide) rfl).1 rfl

/-- Counterexample for C5: the nominal run performs none of the actions
of the Charging or Return-to-base workflow steps of AGENT_SPEC — the run
ends at the mission-complete message after critic review, so it does not
traverse every phase and does not terminate in Charging, and the logs
record only route, battery_end and delivered, not one entry per
phase. -/
theorem nominal_mission_counterexample :
    simulate_mission.1.map eventName =
      ["verify_battery_level", "run_sensor_health_checks", "compute_optimal_route",
       "perform_takeoff_sequence", "sensor_fusion_loop", "find_drop_point_and_land",
       "actuate_servo_release", "Package released successfully.", "post_delivery_upload",
       "critic_review_and_learning", "=== MISSION COMPLETE ==="] ∧
    chargingStepActions.all (fun a => !(simulate_mission.1.map eventName).contains a) = true ∧
    returnStepActions.all (fun a => !(simulate_mission.1.map eventName).contains a) = true := by
  decide

/-- C5 amended: on the nominal input (battery 92, no obstacle detected,
all stub checks passing) the run executes battery check, sensor check,
route computation, takeoff, one sensor-fusion iteration, landing, servo
release, telemetry upload and critic review exactly once each, in that
order, with no abort and no repeated event, and the logs record the
planned route, battery_end 72 and delivered true; the Return-to-base and
Charging workflow steps are not simulated. -/
theorem nominal_mission_amended :
    simulate_mission =
      ([Event.checkBattery, Event.checkSensors, Event.computeRoute, Event.takeoff,
        Event.fusion, Event.land, Event.servoRelease, Event.releaseSuccess, Event.upload,
        Event.criticReview, Event.missionComplete],
       some { route := { path := ["DistributionCenterA", "waypoint1", "waypoint2",
                                  "Customer_123_MainSt"], eta_min := 12 },
              battery_end := 72, delivered := true }) ∧
    simulate_mission.1.Nodup ∧
    Event.abortBattery ∉ simulate_mission.1 ∧
    Event.abortSensors ∉ simulate_mission.1 ∧
    Event.abortTakeoff ∉ simulate_mission.1 ∧
    Event.abortLanding ∉ simulate_mission.1 := by
  decide

/-- Counterexample for C6: the en-route workflow trigger of AGENT_SPEC
fires the predefined failsafe behavior already at a comms-lost duration
of 15 seconds, below the 30-second communication_blackout threshold, so
a lower comms-lost threshold does trigger a failsafe. -/
theorem comms_blackout_counterexample :
    if_comms_lost_gt_10s 15 = true ∧
    communication_blackout_condition 15 = false ∧
    if_comms_lost_gt_10s_action =
      "switch to predefined failsafe behavior (hover or return home)" := by
  decide

/-- C6 amended: the communication_blackout failsafe of
error_handling_and_failsafes fires exactly when the comms-lost duration
exceeds 30 seconds and its action is the predefined failsafe
(hover-then-return or land-at-safe-site, never a no-op); however the
en-route workflow carries a second comms-lost trigger that fires the
predefined failsafe behavior already above 10 seconds, and whenever the
blackout condition holds the en-route trigger holds as well. -/
theorem comms_blackout_amended (d : Nat) :
    (communication_blackout_condition d = true ↔ 30 < d) ∧
    (if_comms_lost_gt_10s d = true ↔ 10 < d) ∧
    (30 < d → if_comms_lost_gt_10s d = true) ∧
    communication_blackout_action =
      "follow_predefined_failsafe (hover_then_return or land_at_safe_site)" := by
  refine ⟨decide_eq_true_iff, decide_eq_true_iff, ?_, rfl⟩
  intro h30
  exact (decide_eq_true_iff).mpr (Nat.lt_trans (by decide) h30)

/-- Witness for C6 amended: at a comms-lost duration of 31 seconds the
blackout condition holds and so does the en-route trigger. -/
theorem comms_blackout_amended_spot :
    communication_blackout_condition 31 = true ∧ if_comms_lost_gt_10s 31 = true :=
  ⟨(comms_blackout_amended 31).1.mpr (by decide),
   (comms_blackout_amended 31).2.2.1 (by decide)⟩

/-- C7: the sensor-fusion/trigger stub is a deterministic,
side-effect-free function of its (empty) snapshot: it ignores mission
state and readings entirely and returns the constant snapshot with no
obstacle detected, so two evaluations on an identical snapshot yield
identical results. -/
theorem sensor_fusion_deterministic :
    sensor_fusion_twice.1 = sensor_fusion_twice.2 ∧
    sensor_fusion_twice.1 = { obstacle_detected := false } := by
  decide

/-- C8: when the battery gate fails, simulate_mission returns
immediately: the trace is exactly the battery check and the abort
message, so no route computation, takeoff, landing, release, upload or
critic review occurs, and no logs are produced. -/
theorem preflight_battery_atomic (env : Env)
    (h : verify_battery_level env.battery = false) :
    simulateMissionGen env = ([Event.checkBattery, Event.abortBattery], none) ∧
    Event.computeRoute ∉ (simulateMissionGen env).1 ∧
    Event.takeoff ∉ (simulateMissionGen env).1 ∧
    Event.land ∉ (simulateMissionGen env).1 ∧
    Event.servoRelease ∉ (simulateMissionGen env).1 ∧
    Event.upload ∉ (simulateMissionGen env).1 ∧
    Event.criticReview ∉ (simulateMissionGen env).1 ∧
    (simulateMissionGen env).2 = none := by
  have htrace : simulateMissionGen env = ([Event.checkBattery, Event.abortBattery], none) := by
    unfold simulateMissionGen
    rw [h]
    simp
  rw [htrace]
  refine ⟨rfl, ?_, ?_, ?_, ?_, ?_, ?_, rfl⟩ <;> decide

/-- Witness for C8: with battery 84 the run is exactly the battery check
and the abort, with no logs. -/
theorem preflight_battery_atomic_spot :
    simulateMissionGen (Env.mk 84 true true false true true true) =
      ([Event.checkBattery, Event.abortBattery], none) :=
  (preflight_battery_atomic (Env.mk 84 true true false true true true) (by decide)).1

/-- C9: for every environment consistent with the source stub — the
obstacle flag equal to the constant returned by sensor_fusion_loop —
perform_collision_avoidance is never invoked, because sensor_fusion_loop
unconditionally reports obstacle_detected false, making the
collision-avoidance branch unreachable. -/
theorem collision_avoidance_unreachable (env : Env)
    (h : env.obstacleDetected = sensor_fusion_loop.obstacle_detected) :
    Event.collisionAvoidance ∉ (simulateMissionGen env).1 ∧
    sensor_fusion_loop.obstacle_detected = false := by
  obtain ⟨b, s, t, o, l, r, n⟩ := env
  have ho : o = false := h
  subst ho
  refine ⟨?_, rfl⟩
  by_cases hb : verify_battery_level b = true
  · cases s <;> cases t <;> cases l <;> cases r <;>
      simp [simulateMissionGen, hb]
  · rw [Bool.not_eq_true] at hb
    simp [simulateMissionGen, hb]

/-- Witness for C9: the actual simulate_mission run never invokes
collision avoidance. -/
theorem collision_avoidance_unreachable_spot :
    Event.collisionAvoidance ∉ simulate_mission.1 ∧
    sensor_fusion_loop.obstacle_detected = false :=
  collision_avoidance_unreachable nominalEnv rfl

/-- C10: write_yaml_from_spec is deterministic in the file it produces:
for the same spec and output path, runs at different wall-clock times
write identical file text — the text is fmt of the spec, independent of
the timestamp, which reaches only the console line. -/
theorem write_yaml_deterministic (spec : Value) (p t₁ t₂ : String) :
    (write_yaml_from_spec spec p t₁).fileText = (write_yaml_from_spec spec p t₂).fileText ∧
    (write_yaml_from_spec spec p t₁).fileText = fmt spec 0 := by
  exact ⟨rfl, rfl⟩

end SmartDrone
